import Mathlib

/-!
Shallow embedding of the SVC (supervisor call) layer of the Citra HLE kernel,
translated from `src/core/hle/kernel/svc.cpp`, together with theorems about the
claims on its behaviour.  Kernel objects that live outside this file (wait
objects, sessions, the virtual-memory manager) are modelled by the narrow
surface `svc.cpp` touches: boolean oracles for their query methods and explicit
state for the fields the SVC layer mutates.
-/

namespace KernelSVC

/-- Modelled from the spec: the abstract error taxonomy of
`core/hle/kernel/errors.h` (the header is not under `src/`; §6 of the spec
lists the kinds).  Every kind is a distinct 32-bit result code in the source;
`raw v` embeds a literal `ResultCode(v)` such as the `0xE7E3FFFF` sentinel of
`ReplyAndReceive`.  `success` is the unique success value `RESULT_SUCCESS`. -/
inductive ResultCode where
  | success
  | timeout
  | invalidHandle
  | invalidPointer
  | invalidAddress
  | misalignedAddress
  | misalignedSize
  | invalidCombination
  | outOfRange
  | invalidEnumValue
  | notImplemented
  | notFound
  | sessionClosedByRemote
  | portNameTooLong
  | raw (v : Nat)
  deriving DecidableEq, Repr

/-- Modelled from the spec: thread scheduling states (`ThreadStatus` in
`core/hle/kernel/thread.h`, which is not under `src/`; §3 of the spec lists
them, with `Stopped` the state set by `Thread::Stop`). -/
inductive ThreadStatus where
  | running
  | ready
  | waitSynchAny
  | waitSynchAll
  | waitSleep
  | waitIPC
  | stopped
  deriving DecidableEq, Repr

/-- Wakeup callback installed on a parked thread by `svc.cpp`:
`SVC_SyncCallback(do_output)` or `SVC_IPCCallback`. -/
inductive WakeupCallback where
  | sync (do_output : Bool)
  | ipc
  deriving DecidableEq, Repr

/-- State of a `WaitObject` as seen from `svc.cpp`: `shouldWait` is the value
`ShouldWait(thread)` returns for the calling thread, `acquireCount` counts the
`Acquire(thread)` calls made on the object, `waiters` is the waiter list built
by `AddWaitingThread`, and `serverSession` is `some (clientOpen, recv)` when
`GetHandleType() == HandleType::ServerSession` — `clientOpen` models
`parent->client != nullptr` and `recv` the outcome of the receive-direction
`TranslateCommandBuffer` (an external oracle). -/
structure WaitObject where
  shouldWait : Bool
  acquireCount : Nat
  waiters : List Nat
  serverSession : Option (Bool × ResultCode)
  deriving DecidableEq, Repr

/-- `WaitObject::Acquire(thread)`: advances the object's internal state once;
observable here as the acquisition counter. -/
def acquire (o : WaitObject) : WaitObject :=
  { o with acquireCount := o.acquireCount + 1 }

/-- `WaitObject::AddWaitingThread(thread)`: appends the thread to the waiter
list. -/
def addWaitingThread (tid : Nat) (o : WaitObject) : WaitObject :=
  { o with waiters := o.waiters ++ [tid] }

/-- The slice of a `Thread` mutated by the wait SVCs: scheduling status, the
`wait_objects` vector (as positions into the handle list of the current call),
the optional wake-after-delay deadline set by `WakeAfterDelay`, and the
installed `wakeup_callback`. -/
structure Thread where
  tid : Nat
  status : ThreadStatus
  waitObjects : List Nat
  wakeDeadline : Option Int
  wakeupCallback : Option WakeupCallback
  deriving DecidableEq, Repr

/-- Result of `SVC::WaitSynchronization1`: the returned code, the wait object
after the call (`none` when the handle did not resolve), the calling thread
after the call, and whether `PrepareReschedule` was requested. -/
structure Wait1Out where
  code : ResultCode
  object : Option WaitObject
  thread : Thread
  reschedule : Bool
  deriving DecidableEq, Repr

/-- `SVC::WaitSynchronization1` (svc.cpp lines 793-828).  `obj` is the result
of `handle_table.Get<WaitObject>(handle)`. -/
def WaitSynchronization1 (obj : Option WaitObject) (th : Thread)
    (nano_seconds : Int) : Wait1Out :=
  match obj with
  | none => ⟨.invalidHandle, none, th, false⟩
  | some object =>
    if object.shouldWait then
      if nano_seconds = 0 then
        ⟨.timeout, some object, th, false⟩
      else
        ⟨.timeout, some (addWaitingThread th.tid object),
          { th with
            waitObjects := [0],
            status := .waitSynchAny,
            wakeDeadline := some nano_seconds,
            wakeupCallback := some (.sync false) },
          true⟩
    else
      ⟨.success, some (acquire object), th, false⟩

/-- The validation prefix shared by `SVC::WaitSynchronizationN` (svc.cpp lines
835-857) and `SVC::ReplyAndReceive` (lines 983-1003): reject an invalid
handles address with `ERR_INVALID_POINTER`, then resolve each handle through
`handle_table.Get<WaitObject>`, rejecting the whole call with
`ERR_INVALID_HANDLE` if any lookup fails.  `handles` holds the per-handle
lookup results. -/
def resolveWaitObjects (addrValid : Bool) (handles : List (Option WaitObject)) :
    Except ResultCode (List WaitObject) :=
  if !addrValid then .error .invalidPointer
  else
    match handles.mapM id with
    | none => .error .invalidHandle
    | some objects => .ok objects

/-- The `std::find_if` + `Acquire` + `std::distance` step of the wait-any
paths: locate the first object with `ShouldWait(thread) == false`, acquire it,
and report its index together with the updated object list. -/
def acquireFirstReady :
    List WaitObject → Option (Nat × WaitObject × List WaitObject)
  | [] => none
  | o :: rest =>
    if !o.shouldWait then some (0, acquire o, acquire o :: rest)
    else
      match acquireFirstReady rest with
      | some (i, found, rest') => some (i + 1, found, o :: rest')
      | none => none

/-- Result of `SVC::WaitSynchronizationN`: returned code, the wait objects
after the call, the calling thread after the call, the value written through
`out` (`none` when the output slot is left untouched), and whether
`PrepareReschedule` was requested. -/
structure WaitNOut where
  code : ResultCode
  objects : List WaitObject
  thread : Thread
  out : Option Int
  reschedule : Bool
  deriving DecidableEq, Repr

/-- `SVC::WaitSynchronizationN` (svc.cpp lines 831-949).  `addrValid` models
`memory.IsValidVirtualAddress(..., handles_address)` and `handles` the
per-handle `handle_table.Get<WaitObject>` results; a negative `handle_count`
is not representable by the list.  On the validation errors no kernel object
is touched (the source returns before mutating anything), which the model
renders by returning the thread unchanged and an empty object list. -/
def WaitSynchronizationN (addrValid : Bool) (handles : List (Option WaitObject))
    (wait_all : Bool) (nano_seconds : Int) (th : Thread) : WaitNOut :=
  match resolveWaitObjects addrValid handles with
  | .error e => ⟨e, [], th, none, false⟩
  | .ok objects =>
    if wait_all then
      if objects.all (fun o => !o.shouldWait) then
        ⟨.success, objects.map acquire, th, none, false⟩
      else if nano_seconds = 0 then
        ⟨.timeout, objects, th, none, false⟩
      else
        ⟨.timeout, objects.map (addWaitingThread th.tid),
          { th with
            status := .waitSynchAll,
            waitObjects := List.range objects.length,
            wakeDeadline := some nano_seconds,
            wakeupCallback := some (.sync false) },
          some (-1), true⟩
    else
      match acquireFirstReady objects with
      | some (i, _, objects') =>
        ⟨.success, objects', th, some (Int.ofNat i), false⟩
      | none =>
        if nano_seconds = 0 then
          ⟨.timeout, objects, th, none, false⟩
        else
          ⟨.timeout, objects.map (addWaitingThread th.tid),
            { th with
              status := .waitSynchAny,
              waitObjects := List.range objects.length,
              wakeDeadline := some nano_seconds,
              wakeupCallback := some (.sync true) },
            some (-1), true⟩

/-- The tick counter of the running core's timer: the `GetTicks`/`AddTicks`
surface of `Core::Timing::Timer` used by `SVC::GetSystemTick`. -/
structure CoreTimer where
  ticks : Int
  deriving DecidableEq, Repr

/-- `SVC::GetSystemTick` (svc.cpp lines 1603-1610): returns the running core's
current tick value, then advances the counter by the fixed constant 150. -/
def GetSystemTick (t : CoreTimer) : Int × CoreTimer :=
  (t.ticks, ⟨t.ticks + 150⟩)

/-- Timer state after `n` isolated `GetSystemTick` calls. -/
def tickStateAfter (t : CoreTimer) : Nat → CoreTimer
  | 0 => t
  | n + 1 => (GetSystemTick (tickStateAfter t n)).2

/-- Value returned by the `(n+1)`-st of a run of isolated `GetSystemTick`
calls starting from timer state `t`. -/
def systemTickSeq (t : CoreTimer) (n : Nat) : Int :=
  (GetSystemTick (tickStateAfter t n)).1

/-- Page size. Modelled from the spec: `Memory::CITRA_PAGE_SIZE` lives in a
header outside `src/`; §3 of the spec fixes page-aligned bases and sizes, and
the 3DS page size is 4 KiB. -/
def CITRA_PAGE_SIZE : Nat := 4096

/-- Low-bit mask of a page offset, `Memory::CITRA_PAGE_MASK`. -/
def CITRA_PAGE_MASK : Nat := CITRA_PAGE_SIZE - 1

/-- Permission bits. Modelled from the spec: `MemoryPermission` is declared in
a header outside `src/`; §3 describes permissions as R/W/X bit combinations
plus `DontCare`, so `None = 0`, `Read = 1`, `Write = 2`, `ReadWrite = 3`,
`Execute = 4` and `DontCare = 0x10000000`. -/
def MemoryPermission_ReadWrite : Nat := 3

/-- `MemoryPermission::None`. -/
def MemoryPermission_None : Nat := 0

/-- `MemoryPermission::Read`. -/
def MemoryPermission_Read : Nat := 1

/-- `MemoryPermission::Write`. -/
def MemoryPermission_Write : Nat := 2

/-- `MemoryPermission::DontCare`. -/
def MemoryPermission_DontCare : Nat := 0x10000000

/-- `ControlMemoryOperation` constants of svc.cpp lines 47-62. -/
def MEMOP_FREE : Nat := 1

/-- `MEMOP_COMMIT` (svc.cpp line 50). -/
def MEMOP_COMMIT : Nat := 3

/-- `MEMOP_MAP` (svc.cpp line 51). -/
def MEMOP_MAP : Nat := 4

/-- `MEMOP_UNMAP` (svc.cpp line 52). -/
def MEMOP_UNMAP : Nat := 5

/-- `MEMOP_PROTECT` (svc.cpp line 53). -/
def MEMOP_PROTECT : Nat := 6

/-- `MEMOP_OPERATION_MASK` (svc.cpp line 54). -/
def MEMOP_OPERATION_MASK : Nat := 0xFF

/-- `MEMOP_REGION_MASK` (svc.cpp line 59). -/
def MEMOP_REGION_MASK : Nat := 0xF00

/-- `MEMOP_LINEAR` (svc.cpp line 61). -/
def MEMOP_LINEAR : Nat := 0x10000

/-- External contract consumed by `SVC::ControlMemory`: the `Process` /
`VMManager` operations it delegates to, as state transformers over an abstract
process-memory state `σ`.  `heapRangeContains` models
`HEAP_VADDR <= addr0 < HEAP_VADDR_END` and `linearRangeContains` models
`GetLinearHeapBase() <= addr0 < GetLinearHeapLimit()`. -/
structure MemOps (σ : Type) where
  heapRangeContains : σ → Nat → Bool
  linearRangeContains : σ → Nat → Bool
  heapFree : σ → Nat → Nat → Except ResultCode σ
  linearFree : σ → Nat → Nat → Except ResultCode σ
  heapAllocate : σ → Nat → Nat → Nat → Except ResultCode (Nat × σ)
  linearAllocate : σ → Nat → Nat → Nat → Except ResultCode (Nat × σ)
  mapRange : σ → Nat → Nat → Nat → Nat → Except ResultCode σ
  unmapRange : σ → Nat → Nat → Nat → Nat → Except ResultCode σ
  reprotectRange : σ → Nat → Nat → Nat → Except ResultCode σ

/-- `SVC::ControlMemory` (svc.cpp lines 455-537).  Returns the result code,
the value written to `*out_addr` (`none` when the slot is not written) and the
process-memory state after the call.  The `operation &= ~MEMOP_REGION_MASK`
step is rendered with the 32-bit complement `0xFFFFF0FF`. -/
def ControlMemory {σ : Type} (ops : MemOps σ) (s : σ)
    (addr0 addr1 size operation permissions : Nat) :
    ResultCode × Option Nat × σ :=
  if addr0 &&& CITRA_PAGE_MASK ≠ 0 ∨ addr1 &&& CITRA_PAGE_MASK ≠ 0 then
    (.misalignedAddress, none, s)
  else if size &&& CITRA_PAGE_MASK ≠ 0 then
    (.misalignedSize, none, s)
  else
    let operation := operation &&& 0xFFFFF0FF
    if permissions &&& MemoryPermission_ReadWrite ≠ permissions then
      (.invalidCombination, none, s)
    else
      let op := operation &&& MEMOP_OPERATION_MASK
      if op = MEMOP_FREE then
        if ops.heapRangeContains s addr0 then
          match ops.heapFree s addr0 size with
          | .error e => (e, none, s)
          | .ok s' => (.success, some addr0, s')
        else if ops.linearRangeContains s addr0 then
          match ops.linearFree s addr0 size with
          | .error e => (e, none, s)
          | .ok s' => (.success, some addr0, s')
        else
          (.invalidAddress, none, s)
      else if op = MEMOP_COMMIT then
        if operation &&& MEMOP_LINEAR ≠ 0 then
          match ops.linearAllocate s addr0 size permissions with
          | .error e => (e, none, s)
          | .ok (a, s') => (.success, some a, s')
        else
          match ops.heapAllocate s addr0 size permissions with
          | .error e => (e, none, s)
          | .ok (a, s') => (.success, some a, s')
      else if op = MEMOP_MAP then
        match ops.mapRange s addr0 addr1 size permissions with
        | .error e => (e, none, s)
        | .ok s' => (.success, none, s')
      else if op = MEMOP_UNMAP then
        match ops.unmapRange s addr0 addr1 size permissions with
        | .error e => (e, none, s)
        | .ok s' => (.success, none, s')
      else if op = MEMOP_PROTECT then
        match ops.reprotectRange s addr0 size permissions with
        | .error e => (e, none, s)
        | .ok s' => (.success, none, s')
      else
        (.invalidCombination, none, s)

/-- Start of the process image region. Modelled from the spec:
`Memory::PROCESS_IMAGE_VADDR` lives outside `src/`; the 3DS memory map puts it
at `0x00100000`. -/
def PROCESS_IMAGE_VADDR : Nat := 0x00100000

/-- End of the shared-memory region. Modelled from the spec:
`Memory::SHARED_MEMORY_VADDR_END` lives outside `src/`; the 3DS memory map
puts it at `0x14000000`. -/
def SHARED_MEMORY_VADDR_END : Nat := 0x14000000

/-- Memory regions a shared-memory block can be allocated from
(`MemoryRegion` in a header outside `src/`). -/
inductive MemoryRegion where
  | application
  | system
  | base
  deriving DecidableEq, Repr

/-- The `VerifyPermissions` lambda of `SVC::CreateMemoryBlock` (svc.cpp lines
1654-1666): shared-memory blocks can not be created with Execute permissions,
so exactly None, Read, Write, ReadWrite and DontCare are accepted. -/
def VerifyPermissions (permission : Nat) : Bool :=
  permission = MemoryPermission_None ∨ permission = MemoryPermission_Read ∨
    permission = MemoryPermission_Write ∨
    permission = MemoryPermission_ReadWrite ∨
    permission = MemoryPermission_DontCare

/-- External contract consumed by `SVC::CreateMemoryBlock`:
`KernelSystem::CreateSharedMemory` (yielding an abstract object identifier)
and `HandleTable::Create`, over an abstract kernel state `σ`. -/
structure ShmemOps (σ : Type) where
  createSharedMemory :
    σ → Nat → Nat → Nat → Nat → MemoryRegion → Except ResultCode (Nat × σ)
  createHandle : σ → Nat → Except ResultCode (Nat × σ)

/-- `SVC::CreateMemoryBlock` (svc.cpp lines 1647-1698).  `sharedDeviceMem` and
`memoryRegion` are the current process's `flags.shared_device_mem` and
`flags.memory_region`.  Returns the result code, the handle written to
`*out_handle` (`none` when the slot is not written) and the kernel state after
the call. -/
def CreateMemoryBlock {σ : Type} (ops : ShmemOps σ) (s : σ)
    (sharedDeviceMem : Bool) (memoryRegion : MemoryRegion)
    (addr size my_permission other_permission : Nat) :
    ResultCode × Option Nat × σ :=
  if size % CITRA_PAGE_SIZE ≠ 0 then
    (.misalignedSize, none, s)
  else if !(VerifyPermissions my_permission) ∨
      !(VerifyPermissions other_permission) then
    (.invalidCombination, none, s)
  else if (addr < PROCESS_IMAGE_VADDR ∨ addr + size > SHARED_MEMORY_VADDR_END) ∧
      addr ≠ 0 then
    (.invalidAddress, none, s)
  else
    let region := if addr = 0 ∧ sharedDeviceMem then memoryRegion else .base
    match ops.createSharedMemory s size my_permission other_permission addr
        region with
    | .error e => (e, none, s)
    | .ok (shmem, s') =>
      match ops.createHandle s' shmem with
      | .error e => (e, none, s')
      | .ok (h, s'') => (.success, some h, s'')

/-- State of a `ServerSession` as seen from the reply step of
`SVC::ReplyAndReceive`: `currentlyHandling` is the id of the client thread
whose request is being processed (`none` when no request is pending) and
`clientOpen` models `parent->client != nullptr`. -/
structure ServerSessionSt where
  currentlyHandling : Option Nat
  clientOpen : Bool
  deriving DecidableEq, Repr

/-- `ReceiveIPCRequest` (svc.cpp lines 951-978), with the receive-direction
`TranslateCommandBuffer` outcome supplied by the `translation` oracle.  A
closed client session yields `ERR_SESSION_CLOSED_BY_REMOTE`; a translation
error resumes the client and then hits `ASSERT_MSG(false, ...)`, modelled as
`none` (emulator abort); otherwise the (successful) translation result is
returned. -/
def ReceiveIPCRequest (clientOpen : Bool) (translation : ResultCode) :
    Option ResultCode :=
  if !clientOpen then some .sessionClosedByRemote
  else if translation ≠ .success then none
  else some translation

/-- Result of `SVC::ReplyAndReceive`: returned code, the value written through
`index` (`none` when the slot is left untouched), the wait objects after the
call, the calling thread after the call, the reply target's session state
after the call, and the client thread resumed by the reply (if any). -/
structure RAROut where
  code : ResultCode
  index : Option Int
  objects : List WaitObject
  thread : Thread
  replySession : Option ServerSessionSt
  resumedClient : Option Nat
  deriving DecidableEq, Repr

/-- `SVC::ReplyAndReceive` (svc.cpp lines 981-1092).  `addrValid` models
`memory.IsValidVirtualAddress(..., handles_address)`, `handles` the per-handle
`handle_table.Get<WaitObject>` results (the handle count is their number),
`cmdId` the `command_id` field of the header word read from the current
thread's command buffer, `replySession` the result of
`handle_table.Get<ServerSession>(reply_target)` and `replyTranslationOk` the
outcome of the reply-direction `TranslateCommandBuffer`.  The overall result
is `none` when the source reaches a kernel panic (a failed `ASSERT`). -/
def ReplyAndReceive (addrValid : Bool) (handles : List (Option WaitObject))
    (cmdId : Nat) (reply_target : Nat) (replySession : Option ServerSessionSt)
    (replyTranslationOk : Bool) (th : Thread) : Option RAROut :=
  match resolveWaitObjects addrValid handles with
  | .error e => some ⟨e, none, [], th, replySession, none⟩
  | .ok objects =>
    let receivePhase : Option ServerSessionSt → Option Nat → Option RAROut :=
      fun sess resumed =>
        if handles.length = 0 then
          if reply_target = 0 ∨ cmdId = 0xFFFF then
            some ⟨.raw 0xE7E3FFFF, some 0, objects, th, sess, resumed⟩
          else
            some ⟨.success, some 0, objects, th, sess, resumed⟩
        else
          match acquireFirstReady objects with
          | some (i, found, objects') =>
            match found.serverSession with
            | none => some ⟨.success, some (Int.ofNat i), objects', th, sess, resumed⟩
            | some (clientOpen, translation) =>
              match ReceiveIPCRequest clientOpen translation with
              | none => none
              | some code =>
                some ⟨code, some (Int.ofNat i), objects', th, sess, resumed⟩
          | none =>
            some ⟨.success, some (-1), objects.map (addWaitingThread th.tid),
              { th with
                status := .waitSynchAny,
                waitObjects := List.range objects.length,
                wakeupCallback := some .ipc },
              sess, resumed⟩
    if reply_target ≠ 0 ∧ cmdId ≠ 0xFFFF then
      match replySession with
      | none => some ⟨.invalidHandle, none, objects, th, none, none⟩
      | some sess =>
        let sess' : ServerSessionSt := { sess with currentlyHandling := none }
        match sess.currentlyHandling with
        | none =>
          some ⟨.sessionClosedByRemote, some (-1), objects, th, some sess', none⟩
        | some request_thread =>
          if !sess.clientOpen then
            some ⟨.sessionClosedByRemote, some (-1), objects, th, some sess', none⟩
          else if !replyTranslationOk then
            none
          else
            receivePhase (some sess') (some request_thread)
    else
      receivePhase replySession none

/-- Process lifecycle status (`ProcessStatus` in `core/hle/kernel/process.h`,
outside `src/`; §3 of the spec lists `Running` and `Exited`). -/
inductive ProcessStatus where
  | running
  | exited
  deriving DecidableEq, Repr

/-- The slice of a kernel thread visible to `SVC::ExitProcess` and
`SVC::ControlProcess`: its id, the pid of its `owner_process` back reference,
and its scheduling status. -/
structure KThread where
  tid : Nat
  ownerPid : Nat
  status : ThreadStatus
  deriving DecidableEq, Repr

/-- A core's `ThreadManager`: its thread list and the id of the thread it is
currently running. -/
structure KCore where
  threads : List KThread
  currentTid : Nat
  deriving DecidableEq, Repr

/-- The slice of `KernelSystem` state used by `SVC::ExitProcess` and
`SVC::GetProcessList`: the per-core thread managers, the index of the running
core, the current process (its pid and the `status` field of the process
object) and the kernel process registry (as the list of registered pids). -/
structure KernelState where
  cores : List KCore
  currentCore : Nat
  currentPid : Nat
  currentStatus : ProcessStatus
  processes : List Nat
  deriving DecidableEq, Repr

/-- The per-thread body of the `ExitProcess` loop (svc.cpp lines 549-562):
threads of other processes and the current thread are skipped; a thread of the
exiting process must be in `WaitSynchAny` or `WaitSynchAll` (otherwise
`ASSERT_MSG` fires, modelled as `none`) and is stopped. -/
def threadExitStep (currentTid pid : Nat) (t : KThread) : Option KThread :=
  if t.ownerPid ≠ pid then some t
  else if t.tid = currentTid then some t
  else if t.status = .waitSynchAny ∨ t.status = .waitSynchAll then
    some { t with status := .stopped }
  else none

/-- `SVC::ExitProcess` (svc.cpp lines 539-573).  Only the running core's
thread manager is consulted (`kernel.GetCurrentThreadManager()`).  The result
is `none` when an `ASSERT` fires: the process had already exited, or a thread
of the process on the current core is in a non-waiting state. -/
def ExitProcess (s : KernelState) : Option KernelState :=
  match s.cores[s.currentCore]? with
  | none => none
  | some core =>
    if s.currentStatus ≠ .running then none
    else
      match core.threads.mapM (threadExitStep core.currentTid s.currentPid) with
      | none => none
      | some threads' =>
        let threads'' := threads'.map fun t =>
          if t.tid = core.currentTid then { t with status := .stopped } else t
        some { s with
          currentStatus := .exited,
          cores := s.cores.set s.currentCore { core with threads := threads'' },
          processes := s.processes.filter (fun pid => pid ≠ s.currentPid) }

/-- `SVC::GetProcessList` (svc.cpp lines 1957-1974): after validating the
output array address, writes the pids of the registered processes until the
array capacity is reached, and returns how many were written. -/
def GetProcessList (addrValid : Bool) (s : KernelState) (capacity : Int) :
    ResultCode × List Nat :=
  if !addrValid then (.invalidPointer, [])
  else (.success, s.processes.take capacity.toNat)

/-- External observations consumed by `SVC::GetSystemInfo`: the per-region
used-memory counters, the number of emulated cores, and the build-identity
string chunks produced by `CopyStringPart` over the `Common::g_build_*` /
`Common::g_scm_*` strings (external data, kept as oracle values). -/
structure SysEnv where
  appUsed : Int
  sysUsed : Int
  baseUsed : Int
  numCores : Nat
  buildName : Int
  buildVersion : Int
  buildDate1 : Int
  buildDate2 : Int
  buildDate3 : Int
  buildDate4 : Int
  scmBranch1 : Int
  scmBranch2 : Int
  scmDesc1 : Int
  scmDesc2 : Int
  deriving DecidableEq, Repr

/-- `SVC::GetSystemInfo` (svc.cpp lines 1764-1860).  Returns the result code
and the value written to `*out`.  The recognized `type` values are
`REGION_MEMORY_USAGE = 0`, `KERNEL_ALLOCATED_PAGES = 2`,
`KERNEL_SPAWNED_PIDS = 26`, `NEW_3DS_INFO = 0x10001` and
`CITRA_INFORMATION = 0x20000`; every other `type` logs, writes 0 and — per the
comment at line 1858 — still returns `RESULT_SUCCESS`. -/
def GetSystemInfo (env : SysEnv) (type : Nat) (param : Int) :
    ResultCode × Int :=
  if type = 0 then
    if param = 0 then (.success, env.appUsed + env.sysUsed + env.baseUsed)
    else if param = 1 then (.success, env.appUsed)
    else if param = 2 then (.success, env.sysUsed)
    else if param = 3 then (.success, env.baseUsed)
    else (.success, 0)
  else if type = 2 then
    (.success, 0)
  else if type = 26 then
    (.success, 5)
  else if type = 0x10001 then
    (if env.numCores = 4 then .success else .invalidEnumValue, 0)
  else if type = 0x20000 then
    if param = 0 then (.success, 1)
    else if param = 10 then (.success, env.buildName)
    else if param = 11 then (.success, env.buildVersion)
    else if param = 20 then (.success, env.buildDate1)
    else if param = 21 then (.success, env.buildDate2)
    else if param = 22 then (.success, env.buildDate3)
    else if param = 23 then (.success, env.buildDate4)
    else if param = 30 then (.success, env.scmBranch1)
    else if param = 31 then (.success, env.scmBranch2)
    else if param = 40 then (.success, env.scmDesc1)
    else if param = 41 then (.success, env.scmDesc2)
    else (.success, 0)
  else
    (.success, 0)

/-- The per-process observations consumed by `SVC::GetProcessInfo`:
`memory_used`, the linear-heap base offset `FCRAM_PADDR -
GetLinearHeapAreaAddress()`, and the codeset metadata (external data, kept as
oracle values). -/
structure ProcEnv where
  memoryUsed : Int
  linearBaseOffset : Int
  codesetName : Int
  programId : Int
  textSize : Int
  rodataSize : Int
  dataSize : Int
  textAddr : Int
  rodataAddr : Int
  dataAddr : Int
  deriving DecidableEq, Repr

/-- `SVC::GetProcessInfo` (svc.cpp lines 1862-1934).  `proc` is the result of
`handle_table.Get<Process>(process_handle)`.  Returns the result code and the
value written to `*out` (`none` when the output slot is not written, as in the
valid-but-unimplemented cases 1,3,4,5,6,7,8). -/
def GetProcessInfo (proc : Option ProcEnv) (type : Nat) :
    ResultCode × Option Int :=
  match proc with
  | none => (.invalidHandle, none)
  | some p =>
    if type = 0 ∨ type = 2 then
      if p.memoryUsed % (CITRA_PAGE_SIZE : Int) ≠ 0 then
        (.misalignedSize, some p.memoryUsed)
      else (.success, some p.memoryUsed)
    else if type = 1 ∨ type = 3 ∨ type = 4 ∨ type = 5 ∨ type = 6 ∨ type = 7 ∨
        type = 8 then
      (.success, none)
    else if type = 20 then
      (.success, some p.linearBaseOffset)
    else if type = 21 ∨ type = 22 ∨ type = 23 then
      (.notImplemented, none)
    else if type = 0x10000 then (.success, some p.codesetName)
    else if type = 0x10001 then (.success, some p.programId)
    else if type = 0x10002 then (.success, some p.textSize)
    else if type = 0x10003 then (.success, some p.rodataSize)
    else if type = 0x10004 then (.success, some p.dataSize)
    else if type = 0x10005 then (.success, some p.textAddr)
    else if type = 0x10006 then (.success, some p.rodataAddr)
    else if type = 0x10007 then (.success, some p.dataAddr)
    else (.invalidEnumValue, none)

/-- `SVC::GetThreadInfo` (svc.cpp lines 1936-1955).  `thread` is the result of
`handle_table.Get<Thread>(thread_handle)`, reduced to the thread's TLS
address, the only datum the handler reads. -/
def GetThreadInfo (thread : Option Int) (type : Nat) :
    ResultCode × Option Int :=
  match thread with
  | none => (.invalidHandle, none)
  | some tls =>
    if type = 0x10000 then (.success, some tls)
    else (.invalidEnumValue, none)

/-- The generic kernel object consumed by `SVC::GetHandleInfo`: `asProcess` is
`some creation_time_ticks` when the object dynamic-casts to a `Process`, and
`useCount` models `shared_ptr::use_count()`. -/
structure HandleObj where
  asProcess : Option Int
  useCount : Int
  deriving DecidableEq, Repr

/-- `SVC::GetHandleInfo` (svc.cpp lines 1613-1644).  `obj` is the result of
`handle_table.GetGeneric(handle)`.  Returns the result code and the value
written to `*out`. -/
def GetHandleInfo (obj : Option HandleObj) (type : Nat) :
    ResultCode × Option Int :=
  match obj with
  | none => (.invalidHandle, none)
  | some o =>
    if type = 0 then (.success, some (o.asProcess.getD 0))
    else if type = 1 then (.success, some (o.useCount - 1))
    else if type = 2 ∨ type = 0x32107 then (.success, some 0)
    else (.invalidEnumValue, none)

/-- The implemented SVC handlers, one tag per non-null member-function pointer
in `SVC::SVC_Table` (svc.cpp lines 2127-2309). -/
inductive SvcId where
  | controlMemory
  | queryMemory
  | exitProcess
  | createThread
  | exitThread
  | sleepThread
  | getThreadPriority
  | setThreadPriority
  | createMutex
  | releaseMutex
  | createSemaphore
  | releaseSemaphore
  | createEvent
  | signalEvent
  | clearEvent
  | createTimer
  | setTimer
  | cancelTimer
  | clearTimer
  | createMemoryBlock
  | mapMemoryBlock
  | unmapMemoryBlock
  | createAddressArbiter
  | arbitrateAddress
  | closeHandle
  | waitSynchronization1
  | waitSynchronizationN
  | duplicateHandle
  | getSystemTick
  | getHandleInfo
  | getSystemInfo
  | getProcessInfo
  | getThreadInfo
  | connectToPort
  | sendSyncRequest
  | openProcess
  | openThread
  | getProcessId
  | getProcessIdOfThread
  | getThreadId
  | getResourceLimit
  | getResourceLimitLimitValues
  | getResourceLimitCurrentValues
  | breakSvc
  | outputDebugString
  | createPort
  | createSessionToPort
  | createSession
  | acceptSession
  | replyAndReceive
  | getProcessList
  | kernelSetState
  | queryProcessMemory
  | convertVaToPa
  | invalidateInstructionCacheRange
  | invalidateEntireInstructionCache
  | mapProcessMemoryEx
  | unmapProcessMemoryEx
  | controlProcess
  deriving DecidableEq, Repr

/-- A row of the dispatch table (`SVC::FunctionDef`, svc.cpp lines 442-448):
SVC number, optional handler (the member-function pointer, rendered as the
handler's tag), and name. -/
structure FunctionDef where
  id : Nat
  func : Option SvcId
  name : String
  deriving DecidableEq, Repr

/-- Rows 0x00…0x1D of `SVC::SVC_Table` (split into chunks of 30 rows; the
full table is their concatenation below). -/
def svcTableChunk0 : List FunctionDef := [
  ⟨0x00, none, "Unknown"⟩,
  ⟨0x01, some .controlMemory, "ControlMemory"⟩,
  ⟨0x02, some .queryMemory, "QueryMemory"⟩,
  ⟨0x03, some .exitProcess, "ExitProcess"⟩,
  ⟨0x04, none, "GetProcessAffinityMask"⟩,
  ⟨0x05, none, "SetProcessAffinityMask"⟩,
  ⟨0x06, none, "GetProcessIdealProcessor"⟩,
  ⟨0x07, none, "SetProcessIdealProcessor"⟩,
  ⟨0x08, some .createThread, "CreateThread"⟩,
  ⟨0x09, some .exitThread, "ExitThread"⟩,
  ⟨0x0A, some .sleepThread, "SleepThread"⟩,
  ⟨0x0B, some .getThreadPriority, "GetThreadPriority"⟩,
  ⟨0x0C, some .setThreadPriority, "SetThreadPriority"⟩,
  ⟨0x0D, none, "GetThreadAffinityMask"⟩,
  ⟨0x0E, none, "SetThreadAffinityMask"⟩,
  ⟨0x0F, none, "GetThreadIdealProcessor"⟩,
  ⟨0x10, none, "SetThreadIdealProcessor"⟩,
  ⟨0x11, none, "GetCurrentProcessorNumber"⟩,
  ⟨0x12, none, "Run"⟩,
  ⟨0x13, some .createMutex, "CreateMutex"⟩,
  ⟨0x14, some .releaseMutex, "ReleaseMutex"⟩,
  ⟨0x15, some .createSemaphore, "CreateSemaphore"⟩,
  ⟨0x16, some .releaseSemaphore, "ReleaseSemaphore"⟩,
  ⟨0x17, some .createEvent, "CreateEvent"⟩,
  ⟨0x18, some .signalEvent, "SignalEvent"⟩,
  ⟨0x19, some .clearEvent, "ClearEvent"⟩,
  ⟨0x1A, some .createTimer, "CreateTimer"⟩,
  ⟨0x1B, some .setTimer, "SetTimer"⟩,
  ⟨0x1C, some .cancelTimer, "CancelTimer"⟩,
  ⟨0x1D, some .clearTimer, "ClearTimer"⟩]

/-- Rows 0x1E…0x3B of `SVC::SVC_Table` (split into chunks of 30 rows; the
full table is their concatenation below). -/
def svcTableChunk1 : List FunctionDef := [
  ⟨0x1E, some .createMemoryBlock, "CreateMemoryBlock"⟩,
  ⟨0x1F, some .mapMemoryBlock, "MapMemoryBlock"⟩,
  ⟨0x20, some .unmapMemoryBlock, "UnmapMemoryBlock"⟩,
  ⟨0x21, some .createAddressArbiter, "CreateAddressArbiter"⟩,
  ⟨0x22, some .arbitrateAddress, "ArbitrateAddress"⟩,
  ⟨0x23, some .closeHandle, "CloseHandle"⟩,
  ⟨0x24, some .waitSynchronization1, "WaitSynchronization1"⟩,
  ⟨0x25, some .waitSynchronizationN, "WaitSynchronizationN"⟩,
  ⟨0x26, none, "SignalAndWait"⟩,
  ⟨0x27, some .duplicateHandle, "DuplicateHandle"⟩,
  ⟨0x28, some .getSystemTick, "GetSystemTick"⟩,
  ⟨0x29, some .getHandleInfo, "GetHandleInfo"⟩,
  ⟨0x2A, some .getSystemInfo, "GetSystemInfo"⟩,
  ⟨0x2B, some .getProcessInfo, "GetProcessInfo"⟩,
  ⟨0x2C, some .getThreadInfo, "GetThreadInfo"⟩,
  ⟨0x2D, some .connectToPort, "ConnectToPort"⟩,
  ⟨0x2E, none, "SendSyncRequest1"⟩,
  ⟨0x2F, none, "SendSyncRequest2"⟩,
  ⟨0x30, none, "SendSyncRequest3"⟩,
  ⟨0x31, none, "SendSyncRequest4"⟩,
  ⟨0x32, some .sendSyncRequest, "SendSyncRequest"⟩,
  ⟨0x33, some .openProcess, "OpenProcess"⟩,
  ⟨0x34, some .openThread, "OpenThread"⟩,
  ⟨0x35, some .getProcessId, "GetProcessId"⟩,
  ⟨0x36, some .getProcessIdOfThread, "GetProcessIdOfThread"⟩,
  ⟨0x37, some .getThreadId, "GetThreadId"⟩,
  ⟨0x38, some .getResourceLimit, "GetResourceLimit"⟩,
  ⟨0x39, some .getResourceLimitLimitValues, "GetResourceLimitLimitValues"⟩,
  ⟨0x3A, some .getResourceLimitCurrentValues, "GetResourceLimitCurrentValues"⟩,
  ⟨0x3B, none, "GetThreadContext"⟩]

/-- Rows 0x3C…0x59 of `SVC::SVC_Table` (split into chunks of 30 rows; the
full table is their concatenation below). -/
def svcTableChunk2 : List FunctionDef := [
  ⟨0x3C, some .breakSvc, "Break"⟩,
  ⟨0x3D, some .outputDebugString, "OutputDebugString"⟩,
  ⟨0x3E, none, "ControlPerformanceCounter"⟩,
  ⟨0x3F, none, "Unknown"⟩,
  ⟨0x40, none, "Unknown"⟩,
  ⟨0x41, none, "Unknown"⟩,
  ⟨0x42, none, "Unknown"⟩,
  ⟨0x43, none, "Unknown"⟩,
  ⟨0x44, none, "Unknown"⟩,
  ⟨0x45, none, "Unknown"⟩,
  ⟨0x46, none, "Unknown"⟩,
  ⟨0x47, some .createPort, "CreatePort"⟩,
  ⟨0x48, some .createSessionToPort, "CreateSessionToPort"⟩,
  ⟨0x49, some .createSession, "CreateSession"⟩,
  ⟨0x4A, some .acceptSession, "AcceptSession"⟩,
  ⟨0x4B, none, "ReplyAndReceive1"⟩,
  ⟨0x4C, none, "ReplyAndReceive2"⟩,
  ⟨0x4D, none, "ReplyAndReceive3"⟩,
  ⟨0x4E, none, "ReplyAndReceive4"⟩,
  ⟨0x4F, some .replyAndReceive, "ReplyAndReceive"⟩,
  ⟨0x50, none, "BindInterrupt"⟩,
  ⟨0x51, none, "UnbindInterrupt"⟩,
  ⟨0x52, none, "InvalidateProcessDataCache"⟩,
  ⟨0x53, none, "StoreProcessDataCache"⟩,
  ⟨0x54, none, "FlushProcessDataCache"⟩,
  ⟨0x55, none, "StartInterProcessDma"⟩,
  ⟨0x56, none, "StopDma"⟩,
  ⟨0x57, none, "GetDmaState"⟩,
  ⟨0x58, none, "RestartDma"⟩,
  ⟨0x59, none, "SetGpuProt"⟩]

/-- Rows 0x5A…0x77 of `SVC::SVC_Table` (split into chunks of 30 rows; the
full table is their concatenation below). -/
def svcTableChunk3 : List FunctionDef := [
  ⟨0x5A, none, "SetWifiEnabled"⟩,
  ⟨0x5B, none, "Unknown"⟩,
  ⟨0x5C, none, "Unknown"⟩,
  ⟨0x5D, none, "Unknown"⟩,
  ⟨0x5E, none, "Unknown"⟩,
  ⟨0x5F, none, "Unknown"⟩,
  ⟨0x60, none, "DebugActiveProcess"⟩,
  ⟨0x61, none, "BreakDebugProcess"⟩,
  ⟨0x62, none, "TerminateDebugProcess"⟩,
  ⟨0x63, none, "GetProcessDebugEvent"⟩,
  ⟨0x64, none, "ContinueDebugEvent"⟩,
  ⟨0x65, some .getProcessList, "GetProcessList"⟩,
  ⟨0x66, none, "GetThreadList"⟩,
  ⟨0x67, none, "GetDebugThreadContext"⟩,
  ⟨0x68, none, "SetDebugThreadContext"⟩,
  ⟨0x69, none, "QueryDebugProcessMemory"⟩,
  ⟨0x6A, none, "ReadProcessMemory"⟩,
  ⟨0x6B, none, "WriteProcessMemory"⟩,
  ⟨0x6C, none, "SetHardwareBreakPoint"⟩,
  ⟨0x6D, none, "GetDebugThreadParam"⟩,
  ⟨0x6E, none, "Unknown"⟩,
  ⟨0x6F, none, "Unknown"⟩,
  ⟨0x70, none, "ControlProcessMemory"⟩,
  ⟨0x71, none, "MapProcessMemory"⟩,
  ⟨0x72, none, "UnmapProcessMemory"⟩,
  ⟨0x73, none, "CreateCodeSet"⟩,
  ⟨0x74, none, "RandomStub"⟩,
  ⟨0x75, none, "CreateProcess"⟩,
  ⟨0x76, none, "TerminateProcess"⟩,
  ⟨0x77, none, "SetProcessResourceLimits"⟩]

/-- Rows 0x78…0x95 of `SVC::SVC_Table` (split into chunks of 30 rows; the
full table is their concatenation below). -/
def svcTableChunk4 : List FunctionDef := [
  ⟨0x78, none, "CreateResourceLimit"⟩,
  ⟨0x79, none, "SetResourceLimitValues"⟩,
  ⟨0x7A, none, "AddCodeSegment"⟩,
  ⟨0x7B, none, "Backdoor"⟩,
  ⟨0x7C, some .kernelSetState, "KernelSetState"⟩,
  ⟨0x7D, some .queryProcessMemory, "QueryProcessMemory"⟩,
  ⟨0x7E, none, "Unused"⟩,
  ⟨0x7F, none, "Unused"⟩,
  ⟨0x80, none, "CustomBackdoor"⟩,
  ⟨0x81, none, "Unused"⟩,
  ⟨0x82, none, "Unused"⟩,
  ⟨0x83, none, "Unused"⟩,
  ⟨0x84, none, "Unused"⟩,
  ⟨0x85, none, "Unused"⟩,
  ⟨0x86, none, "Unused"⟩,
  ⟨0x87, none, "Unused"⟩,
  ⟨0x88, none, "Unused"⟩,
  ⟨0x89, none, "Unused"⟩,
  ⟨0x8A, none, "Unused"⟩,
  ⟨0x8B, none, "Unused"⟩,
  ⟨0x8C, none, "Unused"⟩,
  ⟨0x8D, none, "Unused"⟩,
  ⟨0x8E, none, "Unused"⟩,
  ⟨0x8F, none, "Unused"⟩,
  ⟨0x90, some .convertVaToPa, "ConvertVaToPa"⟩,
  ⟨0x91, none, "FlushDataCacheRange"⟩,
  ⟨0x92, none, "FlushEntireDataCache"⟩,
  ⟨0x93, some .invalidateInstructionCacheRange, "InvalidateInstructionCacheRange"⟩,
  ⟨0x94, some .invalidateEntireInstructionCache, "InvalidateEntireInstructionCache"⟩,
  ⟨0x95, none, "Unused"⟩]

/-- Rows 0x96…0xB3 of `SVC::SVC_Table` (split into chunks of 30 rows; the
full table is their concatenation below). -/
def svcTableChunk5 : List FunctionDef := [
  ⟨0x96, none, "Unused"⟩,
  ⟨0x97, none, "Unused"⟩,
  ⟨0x98, none, "Unused"⟩,
  ⟨0x99, none, "Unused"⟩,
  ⟨0x9A, none, "Unused"⟩,
  ⟨0x9B, none, "Unused"⟩,
  ⟨0x9C, none, "Unused"⟩,
  ⟨0x9D, none, "Unused"⟩,
  ⟨0x9E, none, "Unused"⟩,
  ⟨0x9F, none, "Unused"⟩,
  ⟨0xA0, some .mapProcessMemoryEx, "MapProcessMemoryEx"⟩,
  ⟨0xA1, some .unmapProcessMemoryEx, "UnmapProcessMemoryEx"⟩,
  ⟨0xA2, none, "ControlMemoryEx"⟩,
  ⟨0xA3, none, "ControlMemoryUnsafe"⟩,
  ⟨0xA4, none, "Unused"⟩,
  ⟨0xA5, none, "Unused"⟩,
  ⟨0xA6, none, "Unused"⟩,
  ⟨0xA7, none, "Unused"⟩,
  ⟨0xA8, none, "Unused"⟩,
  ⟨0xA9, none, "Unused"⟩,
  ⟨0xAA, none, "Unused"⟩,
  ⟨0xAB, none, "Unused"⟩,
  ⟨0xAC, none, "Unused"⟩,
  ⟨0xAD, none, "Unused"⟩,
  ⟨0xAE, none, "Unused"⟩,
  ⟨0xAF, none, "Unused"⟩,
  ⟨0xB0, none, "ControlService"⟩,
  ⟨0xB1, none, "CopyHandle"⟩,
  ⟨0xB2, none, "TranslateHandle"⟩,
  ⟨0xB3, some .controlProcess, "ControlProcess"⟩]

/-- `SVC::SVC_Table` (svc.cpp lines 2127-2309): the fixed 180-entry dispatch
table indexed by SVC immediate 0x00…0xB3. -/
def SVC_Table : List FunctionDef :=
  svcTableChunk0 ++ svcTableChunk1 ++ svcTableChunk2 ++ svcTableChunk3 ++
    svcTableChunk4 ++ svcTableChunk5

/-- `SVC::GetSVCInfo` (svc.cpp lines 2311-2317): `nullptr` (here `none`) for
immediates beyond the table, otherwise the table row. -/
def GetSVCInfo (func_num : Nat) : Option FunctionDef :=
  if func_num ≥ SVC_Table.length then none
  else SVC_Table[func_num]?

/-- `SVC::CallSVC` (svc.cpp lines 2321-2339) under the global kernel lock:
look up the immediate, invoke the handler when the row exists and its function
pointer is non-null, otherwise log and return leaving all state untouched.
The handler bodies act on an abstract machine state `σ` through `applyHandler`
(registers plus kernel state; their semantics live in the per-SVC models of
this file). -/
def CallSVC {σ : Type} (applyHandler : SvcId → σ → σ) (s : σ)
    (immediate : Nat) : σ :=
  match GetSVCInfo immediate with
  | none => s
  | some info =>
    match info.func with
    | none => s
    | some f => applyHandler f s

/-! Theorems about the claims. -/

/-- C10: a `WaitSynchronizationN` call with `wait_all = true`, a valid
handles address and zero handles returns `Success` immediately for every
value of `nano_seconds`: the empty list vacuously satisfies the
all-available check, no object is acquired, the `out` slot is left
unchanged, and the thread is never parked. -/
theorem waitSynchronizationN_waitAll_empty_success (nano_seconds : Int)
    (th : Thread) :
    WaitSynchronizationN true [] true nano_seconds th =
      ⟨.success, [], th, none, false⟩ := rfl

/-- Closed form of the tick counter after `n` isolated `GetSystemTick`
calls. -/
theorem tickStateAfter_ticks (t : CoreTimer) (n : Nat) :
    (tickStateAfter t n).ticks = t.ticks + 150 * n := by
  induction n with
  | zero =>
    show t.ticks = t.ticks + 150 * ((0 : Nat) : Int)
    simp
  | succ n ih =>
    show (tickStateAfter t n).ticks + 150 = t.ticks + 150 * ((n + 1 : Nat) : Int)
    rw [ih]
    push_cast
    ring

/-- C7: `GetSystemTick` returns the running core's current tick and advances
the counter by the fixed constant 150, so across a run of isolated calls the
`(n+1)`-st return value is the start tick plus `150 n`; the returned values
are non-decreasing in the call number, and consecutive calls differ by
exactly 150 (hence by at least 150). -/
theorem getSystemTick_monotone_advance (t : CoreTimer) (i j : Nat)
    (h : i ≤ j) :
    systemTickSeq t i = t.ticks + 150 * i ∧
    systemTickSeq t i ≤ systemTickSeq t j ∧
    systemTickSeq t (i + 1) - systemTickSeq t i = 150 ∧
    (150 : Int) ≤ systemTickSeq t (i + 1) - systemTickSeq t i := by
  have hval : ∀ n : Nat, systemTickSeq t n = t.ticks + 150 * n := by
    intro n
    simpa [systemTickSeq, GetSystemTick] using tickStateAfter_ticks t n
  refine ⟨hval i, ?_, ?_, ?_⟩
  · rw [hval i, hval j]
    have : (i : Int) ≤ (j : Int) := by exact_mod_cast h
    linarith
  · rw [hval (i + 1), hval i]
    push_cast
    ring
  · rw [hval (i + 1), hval i]
    push_cast
    linarith

/-- Witness for C7 at a concrete timer state and call numbers 1 ≤ 2. -/
theorem getSystemTick_monotone_advance_witness :
    systemTickSeq ⟨40⟩ 1 = 40 + 150 * 1 ∧
    systemTickSeq ⟨40⟩ 1 ≤ systemTickSeq ⟨40⟩ 2 ∧
    systemTickSeq ⟨40⟩ 2 - systemTickSeq ⟨40⟩ 1 = 150 ∧
    (150 : Int) ≤ systemTickSeq ⟨40⟩ 2 - systemTickSeq ⟨40⟩ 1 :=
  getSystemTick_monotone_advance ⟨40⟩ 1 2 (by decide)

set_option maxRecDepth 8000 in
/-- C6: for every SVC immediate whose dispatch-table row is absent (an
immediate beyond 0xB3) or has a null handler pointer, `CallSVC` returns
without invoking any handler, leaving the machine state — guest registers and
kernel state alike — untouched, whatever the handler semantics are. -/
theorem callSVC_null_handler_noop {σ : Type} (applyHandler : SvcId → σ → σ)
    (s : σ) (immediate : Nat)
    (h : Option.bind (GetSVCInfo immediate) FunctionDef.func = none) :
    CallSVC applyHandler s immediate = s := by
  cases hinfo : GetSVCInfo immediate with
  | none => simp [CallSVC, hinfo]
  | some info =>
    rw [hinfo] at h
    simp at h
    simp [CallSVC, hinfo, h]

set_option maxRecDepth 8000 in
/-- Witness for C6 at the null-handler slot 0x26 (`SignalAndWait`) and the
out-of-range immediate 0xB4, with a handler semantics that would visibly
change the state if it were invoked. -/
theorem callSVC_null_handler_noop_witness :
    CallSVC (fun _ n => n + 1) (0 : Nat) 0x26 = 0 ∧
    CallSVC (fun _ n => n + 1) (0 : Nat) 0xB4 = 0 :=
  ⟨callSVC_null_handler_noop _ 0 0x26 (by decide),
   callSVC_null_handler_noop _ 0 0xB4 (by decide)⟩

/-- Acquiring every object leaves every waiter list unchanged. -/
theorem map_acquire_waiters (objects : List WaitObject) :
    (objects.map acquire).map WaitObject.waiters =
      objects.map WaitObject.waiters := by
  simp [List.map_map, acquire, Function.comp]

/-- Acquiring every object leaves the `serverSession` tags unchanged. -/
theorem map_acquire_acquireCount (objects : List WaitObject) :
    (objects.map (addWaitingThread tid)).map WaitObject.acquireCount =
      objects.map WaitObject.acquireCount := by
  simp [List.map_map, addWaitingThread, Function.comp]

/-- The wait-any acquisition step touches no waiter list. -/
theorem acquireFirstReady_waiters (objects : List WaitObject) :
    ∀ i f objects', acquireFirstReady objects = some (i, f, objects') →
      objects'.map WaitObject.waiters = objects.map WaitObject.waiters := by
  induction objects with
  | nil => intro i f os h; simp [acquireFirstReady] at h
  | cons o rest ih =>
    intro i f os h
    cases hw : o.shouldWait with
    | true =>
      simp only [acquireFirstReady, hw, Bool.not_true, Bool.false_eq_true,
        if_false] at h
      cases hr : acquireFirstReady rest with
      | none => rw [hr] at h; simp at h
      | some v =>
        obtain ⟨i', f', rest'⟩ := v
        rw [hr] at h
        simp only [Option.some.injEq, Prod.mk.injEq] at h
        obtain ⟨-, -, hos⟩ := h
        subst hos
        simp only [List.map_cons, List.cons.injEq]
        exact ⟨trivial, ih _ _ _ hr⟩
    | false =>
      simp only [acquireFirstReady, hw, Bool.not_false, if_true,
        Option.some.injEq, Prod.mk.injEq] at h
      obtain ⟨-, -, hos⟩ := h
      subst hos
      simp [acquire]

/-- C1: `WaitSynchronizationN` with `wait_all = true` over a resolved list of
wait objects is all-or-nothing: when every object reports
`should_wait == false` it acquires every object, returns `Success` and leaves
the `out` slot and the thread untouched; otherwise it acquires nothing — on
`nano_seconds = 0` it returns `Timeout` immediately with all state unchanged,
and otherwise it parks the thread in `WaitSynchAll`, registers it on every
object's waiter list (acquiring none of them), installs
`SVC_SyncCallback(do_output = false)`, writes `-1` through `out` and returns
`Timeout`. -/
theorem waitSynchronizationN_waitAll_all_or_nothing (addrValid : Bool)
    (handles : List (Option WaitObject)) (objects : List WaitObject)
    (th : Thread) (nano_seconds : Int)
    (hres : resolveWaitObjects addrValid handles = .ok objects) :
    ((∀ o ∈ objects, o.shouldWait = false) →
      WaitSynchronizationN addrValid handles true nano_seconds th =
        ⟨.success, objects.map acquire, th, none, false⟩) ∧
    (¬ (∀ o ∈ objects, o.shouldWait = false) → nano_seconds = 0 →
      WaitSynchronizationN addrValid handles true nano_seconds th =
        ⟨.timeout, objects, th, none, false⟩) ∧
    (¬ (∀ o ∈ objects, o.shouldWait = false) → nano_seconds ≠ 0 →
      WaitSynchronizationN addrValid handles true nano_seconds th =
        ⟨.timeout, objects.map (addWaitingThread th.tid),
          { th with
            status := .waitSynchAll,
            waitObjects := List.range objects.length,
            wakeDeadline := some nano_seconds,
            wakeupCallback := some (.sync false) },
          some (-1), true⟩ ∧
      (objects.map (addWaitingThread th.tid)).map WaitObject.acquireCount =
        objects.map WaitObject.acquireCount) := by
  refine ⟨?_, ?_, ?_⟩
  · intro h1
    have hb : (objects.all fun o => !o.shouldWait) = true := by
      rw [List.all_eq_true]
      intro o ho
      simp [h1 o ho]
    simp [WaitSynchronizationN, hres, hb]
  · intro h1 h0
    have hb : (objects.all fun o => !o.shouldWait) = false := by
      rw [Bool.eq_false_iff]
      intro hcon
      rw [List.all_eq_true] at hcon
      exact h1 fun o ho => by simpa using hcon o ho
    subst h0
    simp [WaitSynchronizationN, hres, hb]
  · intro h1 h0
    have hb : (objects.all fun o => !o.shouldWait) = false := by
      rw [Bool.eq_false_iff]
      intro hcon
      rw [List.all_eq_true] at hcon
      exact h1 fun o ho => by simpa using hcon o ho
    refine ⟨by simp [WaitSynchronizationN, hres, hb, h0], ?_⟩
    exact map_acquire_acquireCount objects

/-- Witness for C1 at a concrete input: one still-waiting object, a 5 ns
timeout. -/
theorem waitSynchronizationN_waitAll_all_or_nothing_witness :
    WaitSynchronizationN true [some ⟨true, 0, [], none⟩] true 5
        ⟨7, .running, [], none, none⟩ =
      ⟨.timeout, [⟨true, 0, [7], none⟩],
        ⟨7, .waitSynchAll, [0], some 5, some (.sync false)⟩,
        some (-1), true⟩ :=
  ((waitSynchronizationN_waitAll_all_or_nothing true
      [some ⟨true, 0, [], none⟩] [⟨true, 0, [], none⟩]
      ⟨7, .running, [], none, none⟩ 5 rfl).2.2
    (by simp) (by decide)).1

/-- C2: with `nano_seconds = 0` and valid arguments, neither
`WaitSynchronization1` nor `WaitSynchronizationN` ever parks the calling
thread: each returns `Success` or `Timeout` immediately, leaves the thread
(status, wake deadline and wakeup callback) exactly as it was, and adds the
thread to no waiter list. -/
theorem waitSynchronization_nanosZero_never_parks (obj : WaitObject)
    (th : Thread) (addrValid : Bool) (handles : List (Option WaitObject))
    (objects : List WaitObject) (wait_all : Bool)
    (hres : resolveWaitObjects addrValid handles = .ok objects) :
    ((WaitSynchronization1 (some obj) th 0).code = .success ∨
      (WaitSynchronization1 (some obj) th 0).code = .timeout) ∧
    (WaitSynchronization1 (some obj) th 0).thread = th ∧
    (WaitSynchronization1 (some obj) th 0).object.map WaitObject.waiters =
      some obj.waiters ∧
    ((WaitSynchronizationN addrValid handles wait_all 0 th).code = .success ∨
      (WaitSynchronizationN addrValid handles wait_all 0 th).code = .timeout) ∧
    (WaitSynchronizationN addrValid handles wait_all 0 th).thread = th ∧
    (WaitSynchronizationN addrValid handles wait_all 0 th).objects.map
      WaitObject.waiters = objects.map WaitObject.waiters := by
  have h1 : ((WaitSynchronization1 (some obj) th 0).code = .success ∨
      (WaitSynchronization1 (some obj) th 0).code = .timeout) ∧
      (WaitSynchronization1 (some obj) th 0).thread = th ∧
      (WaitSynchronization1 (some obj) th 0).object.map WaitObject.waiters =
        some obj.waiters := by
    cases hw : obj.shouldWait with
    | true => simp [WaitSynchronization1, hw]
    | false => simp [WaitSynchronization1, hw, acquire]
  refine ⟨h1.1, h1.2.1, h1.2.2, ?_⟩
  cases wait_all with
  | true =>
    cases hb : objects.all fun o => !o.shouldWait with
    | true => simp [WaitSynchronizationN, hres, hb, acquire]
    | false => simp [WaitSynchronizationN, hres, hb]
  | false =>
    cases hfr : acquireFirstReady objects with
    | none => simp [WaitSynchronizationN, hres, hfr]
    | some v =>
      obtain ⟨i, f, objects'⟩ := v
      have := acquireFirstReady_waiters objects i f objects' hfr
      simp [WaitSynchronizationN, hres, hfr, this]

/-- Witness for C2 at a concrete input: a still-waiting single object for
both the single- and multi-object calls. -/
theorem waitSynchronization_nanosZero_never_parks_witness :
    ((WaitSynchronization1 (some ⟨true, 0, [], none⟩)
        ⟨7, .running, [], none, none⟩ 0).code = .success ∨
      (WaitSynchronization1 (some ⟨true, 0, [], none⟩)
        ⟨7, .running, [], none, none⟩ 0).code = .timeout) ∧
    (WaitSynchronization1 (some ⟨true, 0, [], none⟩)
        ⟨7, .running, [], none, none⟩ 0).thread =
      ⟨7, .running, [], none, none⟩ ∧
    (WaitSynchronization1 (some ⟨true, 0, [], none⟩)
        ⟨7, .running, [], none, none⟩ 0).object.map WaitObject.waiters =
      some [] ∧
    ((WaitSynchronizationN true [some ⟨true, 0, [], none⟩] false 0
        ⟨7, .running, [], none, none⟩).code = .success ∨
      (WaitSynchronizationN true [some ⟨true, 0, [], none⟩] false 0
        ⟨7, .running, [], none, none⟩).code = .timeout) ∧
    (WaitSynchronizationN true [some ⟨true, 0, [], none⟩] false 0
        ⟨7, .running, [], none, none⟩).thread =
      ⟨7, .running, [], none, none⟩ ∧
    (WaitSynchronizationN true [some ⟨true, 0, [], none⟩] false 0
        ⟨7, .running, [], none, none⟩).objects.map WaitObject.waiters =
      [⟨true, 0, [], none⟩].map WaitObject.waiters :=
  waitSynchronization_nanosZero_never_parks ⟨true, 0, [], none⟩
    ⟨7, .running, [], none, none⟩ true [some ⟨true, 0, [], none⟩]
    [⟨true, 0, [], none⟩] false rfl

/-- C8: `ControlMemory` validates its arguments before touching any memory
state: a non-page-aligned `addr0` or `addr1` yields `MisalignedAddress`; with
aligned addresses a non-page-aligned `size` yields `MisalignedSize`; with
aligned inputs, permissions with any bit outside `ReadWrite` yield
`InvalidCombination`.  In each case no output is written and the
process-memory state is returned unchanged — for every possible semantics of
the delegated heap/linear/VMManager operations, so none of them can have
run. -/
theorem controlMemory_validation {σ : Type} (ops : MemOps σ) (s : σ)
    (addr0 addr1 size operation permissions : Nat) :
    (addr0 &&& CITRA_PAGE_MASK ≠ 0 ∨ addr1 &&& CITRA_PAGE_MASK ≠ 0 →
      ControlMemory ops s addr0 addr1 size operation permissions =
        (.misalignedAddress, none, s)) ∧
    (addr0 &&& CITRA_PAGE_MASK = 0 → addr1 &&& CITRA_PAGE_MASK = 0 →
      size &&& CITRA_PAGE_MASK ≠ 0 →
      ControlMemory ops s addr0 addr1 size operation permissions =
        (.misalignedSize, none, s)) ∧
    (addr0 &&& CITRA_PAGE_MASK = 0 → addr1 &&& CITRA_PAGE_MASK = 0 →
      size &&& CITRA_PAGE_MASK = 0 →
      permissions &&& MemoryPermission_ReadWrite ≠ permissions →
      ControlMemory ops s addr0 addr1 size operation permissions =
        (.invalidCombination, none, s)) := by
  refine ⟨?_, ?_, ?_⟩
  · intro h
    simp [ControlMemory, h]
  · intro h0 h1 hs
    simp [ControlMemory, h0, h1, hs]
  · intro h0 h1 hs hp
    simp [ControlMemory, h0, h1, hs, hp]

/-- A concrete instantiation of the external memory operations whose every
operation visibly changes the state, making "the state is unchanged"
meaningful at a concrete input. -/
def demoMemOps : MemOps Nat where
  heapRangeContains := fun _ _ => true
  linearRangeContains := fun _ _ => true
  heapFree := fun s _ _ => .ok (s + 1)
  linearFree := fun s _ _ => .ok (s + 1)
  heapAllocate := fun s a _ _ => .ok (a, s + 1)
  linearAllocate := fun s a _ _ => .ok (a, s + 1)
  mapRange := fun s _ _ _ _ => .ok (s + 1)
  unmapRange := fun s _ _ _ _ => .ok (s + 1)
  reprotectRange := fun s _ _ _ => .ok (s + 1)

/-- Witness for C8: the spec's own example `ControlMemory(addr0 = 0x1001, …)`
returns `MisalignedAddress`, plus the misaligned-size and bad-permission
cases, all leaving the concrete state `0` unchanged. -/
theorem controlMemory_validation_witness :
    ControlMemory demoMemOps 0 0x1001 0 0x1000 3 3 =
      (.misalignedAddress, none, 0) ∧
    ControlMemory demoMemOps 0 0x1000 0 0x1001 3 3 =
      (.misalignedSize, none, 0) ∧
    ControlMemory demoMemOps 0 0x1000 0 0x1000 3 7 =
      (.invalidCombination, none, 0) :=
  ⟨(controlMemory_validation demoMemOps 0 0x1001 0 0x1000 3 3).1
      (Or.inl (by decide)),
   (controlMemory_validation demoMemOps 0 0x1000 0 0x1001 3 3).2.1
      (by decide) (by decide) (by decide),
   (controlMemory_validation demoMemOps 0 0x1000 0 0x1000 3 7).2.2
      (by decide) (by decide) (by decide) (by decide)⟩

/-- A concrete instantiation of the shared-memory creation operations whose
operations visibly change the state and yield fixed identifiers. -/
def demoShmemOps : ShmemOps Nat where
  createSharedMemory := fun s _ _ _ _ _ => .ok (99, s + 1)
  createHandle := fun s _ => .ok (42, s + 1)

/-- C9 counterexample: at `addr = SHARED_MEMORY_VADDR_END` (which is nonzero
and does not lie within `[PROCESS_IMAGE_VADDR, SHARED_MEMORY_VADDR_END)`) and
`size = 0`, the claim demands `InvalidAddress`, but the source's check is over
the whole block `addr + size > SHARED_MEMORY_VADDR_END`, which `0x14000000 +
0` does not trigger: the call goes on to create the block and returns
`Success`. -/
theorem createMemoryBlock_addr_claim_counterexample :
    (0x14000000 : Nat) ≠ 0 ∧
    ¬ (PROCESS_IMAGE_VADDR ≤ 0x14000000 ∧
        (0x14000000 : Nat) < SHARED_MEMORY_VADDR_END) ∧
    CreateMemoryBlock demoShmemOps 0 false .base 0x14000000 0 0 0 =
      (.success, some 42, 2) := by decide

/-- C9 (amended): `CreateMemoryBlock` returns `MisalignedSize` for a
non-page-aligned size; `InvalidCombination` when either permission is outside
{None, Read, Write, ReadWrite, DontCare} (in particular anything containing
Execute); and — the amendment — `InvalidAddress` when `addr` is nonzero and
the block `[addr, addr + size)` does not lie within
`[PROCESS_IMAGE_VADDR, SHARED_MEMORY_VADDR_END)`, that is, when
`addr < PROCESS_IMAGE_VADDR` or `addr + size > SHARED_MEMORY_VADDR_END`.  On
each error the kernel state is returned unchanged for every possible
semantics of the creation operations, so no shared-memory object or handle
was created. -/
theorem createMemoryBlock_validation {σ : Type} (ops : ShmemOps σ) (s : σ)
    (sharedDeviceMem : Bool) (memoryRegion : MemoryRegion)
    (addr size my_permission other_permission : Nat) :
    (size % CITRA_PAGE_SIZE ≠ 0 →
      CreateMemoryBlock ops s sharedDeviceMem memoryRegion addr size
          my_permission other_permission =
        (.misalignedSize, none, s)) ∧
    (size % CITRA_PAGE_SIZE = 0 →
      VerifyPermissions my_permission = false ∨
        VerifyPermissions other_permission = false →
      CreateMemoryBlock ops s sharedDeviceMem memoryRegion addr size
          my_permission other_permission =
        (.invalidCombination, none, s)) ∧
    (size % CITRA_PAGE_SIZE = 0 →
      VerifyPermissions my_permission = true →
      VerifyPermissions other_permission = true →
      addr ≠ 0 →
      addr < PROCESS_IMAGE_VADDR ∨ addr + size > SHARED_MEMORY_VADDR_END →
      CreateMemoryBlock ops s sharedDeviceMem memoryRegion addr size
          my_permission other_permission =
        (.invalidAddress, none, s)) := by
  refine ⟨?_, ?_, ?_⟩
  · intro h
    simp [CreateMemoryBlock, h]
  · intro hs hp
    rcases hp with hp | hp <;> simp [CreateMemoryBlock, hs, hp]
  · intro hs hp1 hp2 ha hrange
    simp [CreateMemoryBlock, hs, hp1, hp2, ha, hrange]

/-- Witness for C9's amended statement: misaligned size, an Execute
permission, and an address below the process-image base, each leaving the
concrete state `0` unchanged. -/
theorem createMemoryBlock_validation_witness :
    CreateMemoryBlock demoShmemOps 0 false .base 0x00100000 0x1001 0 0 =
      (.misalignedSize, none, 0) ∧
    CreateMemoryBlock demoShmemOps 0 false .base 0x00100000 0x1000 4 0 =
      (.invalidCombination, none, 0) ∧
    CreateMemoryBlock demoShmemOps 0 false .base 0x00001000 0x1000 0 0 =
      (.invalidAddress, none, 0) :=
  ⟨(createMemoryBlock_validation demoShmemOps 0 false .base 0x00100000 0x1001
      0 0).1 (by decide),
   (createMemoryBlock_validation demoShmemOps 0 false .base 0x00100000 0x1000
      4 0).2.1 (by decide) (Or.inl (by decide)),
   (createMemoryBlock_validation demoShmemOps 0 false .base 0x00001000 0x1000
      0 0).2.2 (by decide) (by decide) (by decide) (by decide)
      (Or.inl (by decide))⟩

/-- C3 counterexample: with `handle_count = 0`, a valid handles address,
`reply_target = 5` an unresolvable handle and a command id `0 ≠ 0xFFFF`, the
claim demands `Success` (a reply was requested), but the source's reply step
fails with `ERR_INVALID_HANDLE` before the zero-handle block is reached —
returning neither `Success` nor the sentinel. -/
theorem replyAndReceive_zero_handles_counterexample :
    ReplyAndReceive true [] 0 5 none true ⟨7, .running, [], none, none⟩ =
      some ⟨.invalidHandle, none, [], ⟨7, .running, [], none, none⟩,
        none, none⟩ ∧
    ResultCode.invalidHandle ≠ .success ∧
    ResultCode.invalidHandle ≠ .raw 0xE7E3FFFF := by decide

/-- C3 (amended): for `ReplyAndReceive` with `handle_count = 0` and a valid
handles address: when no reply is requested (`reply_target = 0` or the
outgoing header's command id is `0xFFFF`) the call writes `0` to `*out_index`
and returns the sentinel `0xE7E3FFFF`; when a reply is requested and the
reply step succeeds (the target resolves to a `ServerSession` with a pending
request thread and an open client, and the reply translation succeeds) the
call writes `0` to `*out_index`, resumes that client and returns `Success`.
(When the reply step fails, its own error — `InvalidHandle` or
`SessionClosedByRemote` — is returned instead; that case is what forces this
amendment.) -/
theorem replyAndReceive_zero_handles (cmdId reply_target : Nat)
    (sess : Option ServerSessionSt) (replyTranslationOk : Bool) (th : Thread)
    (s : ServerSessionSt) (client : Nat) :
    ((reply_target = 0 ∨ cmdId = 0xFFFF) →
      ReplyAndReceive true [] cmdId reply_target sess replyTranslationOk th =
        some ⟨.raw 0xE7E3FFFF, some 0, [], th, sess, none⟩) ∧
    (reply_target ≠ 0 → cmdId ≠ 0xFFFF → sess = some s →
      s.currentlyHandling = some client → s.clientOpen = true →
      replyTranslationOk = true →
      ReplyAndReceive true [] cmdId reply_target sess replyTranslationOk th =
        some ⟨.success, some 0, [], th,
          some { s with currentlyHandling := none }, some client⟩) := by
  constructor
  · intro h
    have hnot : ¬ (reply_target ≠ 0 ∧ cmdId ≠ 0xFFFF) := by
      rcases h with h | h <;> simp [h]
    simp [ReplyAndReceive, resolveWaitObjects, hnot, h]
    rfl
  · intro h1 h2 hs hch hopen htok
    subst hs
    subst htok
    simp [ReplyAndReceive, resolveWaitObjects, h1, h2, hch, hopen]
    rfl

/-- Witness for C3's amended statement at concrete inputs: a no-reply call
returning the sentinel, and a successful reply over a session with pending
client 3 returning `Success`. -/
theorem replyAndReceive_zero_handles_witness :
    ReplyAndReceive true [] 0xFFFF 0 none true
        ⟨7, .running, [], none, none⟩ =
      some ⟨.raw 0xE7E3FFFF, some 0, [], ⟨7, .running, [], none, none⟩,
        none, none⟩ ∧
    ReplyAndReceive true [] 0 5 (some ⟨some 3, true⟩) true
        ⟨7, .running, [], none, none⟩ =
      some ⟨.success, some 0, [], ⟨7, .running, [], none, none⟩,
        some ⟨none, true⟩, some 3⟩ :=
  ⟨(replyAndReceive_zero_handles 0xFFFF 0 none true
      ⟨7, .running, [], none, none⟩ ⟨none, true⟩ 0).1 (Or.inl rfl),
   (replyAndReceive_zero_handles 0 5 (some ⟨some 3, true⟩) true
      ⟨7, .running, [], none, none⟩ ⟨some 3, true⟩ 3).2
      (by decide) (by decide) rfl rfl rfl rfl⟩

/-- A kernel state with two cores: the exiting process (pid 1) owns the
running current thread 0 on core 0 and a thread 5 parked in `WaitSynchAny` on
core 1. -/
def exitDemoState : KernelState :=
  { cores := [⟨[⟨0, 1, .running⟩], 0⟩, ⟨[⟨5, 1, .waitSynchAny⟩], 6⟩],
    currentCore := 0,
    currentPid := 1,
    currentStatus := .running,
    processes := [1] }

/-- C4 counterexample: `ExitProcess` only walks the current core's thread
manager, so thread 5 of the exiting process — parked in `WaitSynchAny` on the
other core — is left in `WaitSynchAny`, not `Stopped`, contradicting the
claim's "every thread of that process on every core … is stopped" and
"afterwards every thread of that process is in state Stopped". -/
theorem exitProcess_other_core_counterexample :
    ExitProcess exitDemoState =
      some { cores := [⟨[⟨0, 1, .stopped⟩], 0⟩, ⟨[⟨5, 1, .waitSynchAny⟩], 6⟩],
             currentCore := 0,
             currentPid := 1,
             currentStatus := .exited,
             processes := [] } ∧
    ThreadStatus.waitSynchAny ≠ .stopped := by decide

/-- Under the assumption that every other thread of the exiting process on
the current core is waiting, the per-thread exit loop succeeds and stops
exactly the process's non-current threads. -/
theorem mapM_threadExitStep (curTid pid : Nat) (l : List KThread)
    (h : ∀ t ∈ l, t.ownerPid = pid → t.tid ≠ curTid →
      t.status = .waitSynchAny ∨ t.status = .waitSynchAll) :
    l.mapM (threadExitStep curTid pid) =
      some (l.map fun t =>
        if t.ownerPid = pid ∧ t.tid ≠ curTid then { t with status := .stopped }
        else t) := by
  induction l with
  | nil => rfl
  | cons t rest ih =>
    have hstep : threadExitStep curTid pid t =
        some (if t.ownerPid = pid ∧ t.tid ≠ curTid
          then { t with status := .stopped } else t) := by
      by_cases h1 : t.ownerPid = pid
      · by_cases h2 : t.tid = curTid
        · simp [threadExitStep, h1, h2]
        · rcases h t (by simp) h1 h2 with hw | hw <;>
            simp [threadExitStep, h1, h2, hw]
      · simp [threadExitStep, h1]
    rw [List.mapM_cons, hstep,
      ih fun u hu => h u (List.mem_cons_of_mem _ hu)]
    rfl

/-- C4 (amended): `ExitProcess` — when the current core resolves, the current
process is still `Running`, and every other thread of the process **on the
current core** is in `WaitSynchAny`/`WaitSynchAll` (otherwise the source
asserts) — sets the process status to `Exited`, stops every thread of the
process on the current core as well as the current thread, leaves every other
core untouched, and removes the process from the kernel registry, so its pid
no longer appears in any `GetProcessList` output.  (The claim's "on every
core" fails: only the running core's thread manager is walked.) -/
theorem exitProcess_current_core_semantics (st : KernelState) (core : KCore)
    (hcore : st.cores[st.currentCore]? = some core)
    (hrun : st.currentStatus = .running)
    (hwait : ∀ t ∈ core.threads, t.ownerPid = st.currentPid →
      t.tid ≠ core.currentTid →
      t.status = .waitSynchAny ∨ t.status = .waitSynchAll) :
    ∃ core', ExitProcess st = some
        { st with
          currentStatus := .exited,
          cores := st.cores.set st.currentCore core',
          processes := st.processes.filter fun pid => pid ≠ st.currentPid } ∧
      core'.currentTid = core.currentTid ∧
      (∀ t ∈ core'.threads,
        t.ownerPid = st.currentPid ∨ t.tid = core.currentTid →
        t.status = .stopped) ∧
      (∀ t ∈ core'.threads,
        t.ownerPid ≠ st.currentPid → t.tid ≠ core.currentTid →
        t ∈ core.threads) ∧
      (∀ c, c ≠ st.currentCore →
        (st.cores.set st.currentCore core')[c]? = st.cores[c]?) ∧
      (∀ addrValid capacity, st.currentPid ∉
        (GetProcessList addrValid
          { st with
            currentStatus := .exited,
            cores := st.cores.set st.currentCore core',
            processes :=
              st.processes.filter fun pid => pid ≠ st.currentPid }
          capacity).2) := by
  refine ⟨{ core with threads :=
    (core.threads.map fun t =>
      if t.ownerPid = st.currentPid ∧ t.tid ≠ core.currentTid
      then { t with status := .stopped } else t).map fun t =>
        if t.tid = core.currentTid then { t with status := .stopped }
        else t }, ?_, rfl, ?_, ?_, ?_, ?_⟩
  · simp only [ExitProcess, hcore, hrun]
    rw [mapM_threadExitStep core.currentTid st.currentPid core.threads hwait]
    simp
  · intro t ht hcond
    simp only [List.mem_map] at ht
    obtain ⟨u, hu, hgu⟩ := ht
    obtain ⟨v, hv, hfv⟩ := hu
    by_cases hvt : v.tid = core.currentTid
    · subst hgu
      subst hfv
      simp [hvt]
    · by_cases hvo : v.ownerPid = st.currentPid
      · subst hgu
        subst hfv
        simp [hvt, hvo]
      · exfalso
        subst hgu
        subst hfv
        simp [hvt, hvo] at hcond
  · intro t ht ho hc
    simp only [List.mem_map] at ht
    obtain ⟨u, hu, hgu⟩ := ht
    obtain ⟨v, hv, hfv⟩ := hu
    by_cases hvt : v.tid = core.currentTid
    · exfalso
      subst hgu
      subst hfv
      simp [hvt] at hc
    · by_cases hvo : v.ownerPid = st.currentPid
      · exfalso
        subst hgu
        subst hfv
        simp [hvt, hvo] at ho
      · subst hgu
        subst hfv
        simpa [hvt, hvo] using hv
  · intro c hc
    rw [List.getElem?_set_ne (by omega)]
  · intro addrValid capacity hmem
    cases addrValid with
    | false => simp [GetProcessList] at hmem
    | true =>
      simp only [GetProcessList] at hmem
      have hsub := List.take_subset capacity.toNat
        (st.processes.filter fun pid => pid ≠ st.currentPid)
      have := hsub hmem
      simp at this

/-- Witness for C4's amended statement: a single-core state whose exiting
process owns the current thread 0 and a parked thread 2. -/
theorem exitProcess_current_core_semantics_witness :
    ∃ core', ExitProcess
        ⟨[⟨[⟨0, 1, .running⟩, ⟨2, 1, .waitSynchAll⟩], 0⟩], 0, 1, .running,
          [1, 4]⟩ = some
        { cores := [⟨[⟨0, 1, .running⟩, ⟨2, 1, .waitSynchAll⟩], 0⟩].set 0
            core',
          currentCore := 0,
          currentPid := 1,
          currentStatus := .exited,
          processes := [1, 4].filter fun pid => pid ≠ 1 } ∧
      core'.currentTid = 0 ∧
      (∀ t ∈ core'.threads, t.ownerPid = 1 ∨ t.tid = 0 →
        t.status = .stopped) ∧
      (∀ t ∈ core'.threads, t.ownerPid ≠ 1 → t.tid ≠ 0 →
        t ∈ [KThread.mk 0 1 .running, KThread.mk 2 1 .waitSynchAll]) ∧
      (∀ c, c ≠ 0 →
        ([⟨[⟨0, 1, .running⟩, ⟨2, 1, .waitSynchAll⟩], 0⟩].set 0 core')[c]? =
          [KCore.mk [⟨0, 1, .running⟩, ⟨2, 1, .waitSynchAll⟩] 0][c]?) ∧
      (∀ addrValid capacity, 1 ∉
        (GetProcessList addrValid
          { cores := [⟨[⟨0, 1, .running⟩, ⟨2, 1, .waitSynchAll⟩], 0⟩].set 0
              core',
            currentCore := 0,
            currentPid := 1,
            currentStatus := .exited,
            processes := [1, 4].filter fun pid => pid ≠ 1 }
          capacity).2) :=
  exitProcess_current_core_semantics
    ⟨[⟨[⟨0, 1, .running⟩, ⟨2, 1, .waitSynchAll⟩], 0⟩], 0, 1, .running,
      [1, 4]⟩
    ⟨[⟨0, 1, .running⟩, ⟨2, 1, .waitSynchAll⟩], 0⟩
    rfl rfl (by decide)

/-- A concrete environment for `GetSystemInfo` witnesses. -/
def demoSysEnv : SysEnv := ⟨0, 0, 0, 4, 0, 0, 0, 0, 0, 0, 0, 0, 0, 0⟩

/-- C5 counterexample: `type = 1` is not a recognized `GetSystemInfo` value,
yet the call writes 0 and returns `Success` — the handler never returns an
error on unknown enum values (svc.cpp line 1858) — contradicting the claim
that unknown values yield `InvalidEnumValue` (or `NotImplemented`). -/
theorem getSystemInfo_unknown_type_counterexample :
    GetSystemInfo demoSysEnv 1 0 = (.success, 0) ∧
    (1 : Nat) ∉ ([0, 2, 26, 0x10001, 0x20000] : List Nat) ∧
    ResultCode.success ≠ .invalidEnumValue ∧
    ResultCode.success ≠ .notImplemented := by decide

/-- C5 (amended): for the introspection SVCs with a resolved handle,
unrecognized type values yield `InvalidEnumValue` in `GetProcessInfo`,
`GetThreadInfo` and `GetHandleInfo`, with the documented QTM range 21–23 of
`GetProcessInfo` yielding the distinct `NotImplemented`; `GetSystemInfo`
however never returns an error for an unrecognized type — it writes 0 and
returns `Success`. -/
theorem introspection_unknown_enum (env : SysEnv) (param : Int) (p : ProcEnv)
    (tls : Int) (o : HandleObj) (tSys tProc tThread tHandle : Nat)
    (hSys : tSys ∉ ([0, 2, 26, 0x10001, 0x20000] : List Nat))
    (hProc : tProc ∉ ([0, 1, 2, 3, 4, 5, 6, 7, 8, 20, 21, 22, 23, 0x10000,
      0x10001, 0x10002, 0x10003, 0x10004, 0x10005, 0x10006,
      0x10007] : List Nat))
    (hThread : tThread ≠ 0x10000)
    (hHandle : tHandle ∉ ([0, 1, 2, 0x32107] : List Nat)) :
    GetSystemInfo env tSys param = (.success, 0) ∧
    GetProcessInfo (some p) tProc = (.invalidEnumValue, none) ∧
    GetProcessInfo (some p) 21 = (.notImplemented, none) ∧
    GetProcessInfo (some p) 22 = (.notImplemented, none) ∧
    GetProcessInfo (some p) 23 = (.notImplemented, none) ∧
    GetThreadInfo (some tls) tThread = (.invalidEnumValue, none) ∧
    GetHandleInfo (some o) tHandle = (.invalidEnumValue, none) := by
  simp only [List.mem_cons, List.mem_singleton, not_or] at hSys hProc hHandle
  obtain ⟨s0, s2, s26, sNew, sCitra, -⟩ := hSys
  obtain ⟨p0, p1, p2, p3, p4, p5, p6, p7, p8, p20, p21, p22, p23, q0, q1, q2,
    q3, q4, q5, q6, q7, -⟩ := hProc
  obtain ⟨g0, g1, g2, g3, -⟩ := hHandle
  refine ⟨?_, ?_, ?_, ?_, ?_, ?_, ?_⟩
  · simp [GetSystemInfo, s0, s2, s26, sNew, sCitra]
  · simp [GetProcessInfo, p0, p1, p2, p3, p4, p5, p6, p7, p8, p20, p21, p22,
      p23, q0, q1, q2, q3, q4, q5, q6, q7]
  · simp [GetProcessInfo]
  · simp [GetProcessInfo]
  · simp [GetProcessInfo]
  · simp [GetThreadInfo, hThread]
  · simp [GetHandleInfo, g0, g1, g2, g3]

/-- Witness for C5's amended statement at concrete unrecognized type values
(1, 9, 0, 3 respectively). -/
theorem introspection_unknown_enum_witness :
    GetSystemInfo demoSysEnv 1 0 = (.success, 0) ∧
    GetProcessInfo (some ⟨0, 0, 0, 0, 0, 0, 0, 0, 0, 0⟩) 9 =
      (.invalidEnumValue, none) ∧
    GetProcessInfo (some ⟨0, 0, 0, 0, 0, 0, 0, 0, 0, 0⟩) 21 =
      (.notImplemented, none) ∧
    GetProcessInfo (some ⟨0, 0, 0, 0, 0, 0, 0, 0, 0, 0⟩) 22 =
      (.notImplemented, none) ∧
    GetProcessInfo (some ⟨0, 0, 0, 0, 0, 0, 0, 0, 0, 0⟩) 23 =
      (.notImplemented, none) ∧
    GetThreadInfo (some 0) 0 = (.invalidEnumValue, none) ∧
    GetHandleInfo (some ⟨none, 1⟩) 3 = (.invalidEnumValue, none) :=
  introspection_unknown_enum demoSysEnv 0 ⟨0, 0, 0, 0, 0, 0, 0, 0, 0, 0⟩ 0
    ⟨none, 1⟩ 1 9 0 3 (by decide) (by decide) (by decide) (by decide)

end KernelSVC
